import Mathlib

/-!
Verification of the safe-motion utilities of the tube-crack setup repository.

The development shallowly embeds the Python sources:

* `src/util/util.py` — the visual offset estimator `safe_get_tf_shift`, the
  trajectory safety validators `safe_move_j` and `safe_fast_move_j_to`, the
  dual-arm planner wrapper `safe_plan_fast_move_j_to_dual_arm`, and the
  trajectory reversal helper `reverse_trajectory_file` (a stub in the source,
  modelled from the specification).
* `src/task_setup_tube_crack/sub_tasks/pick_crack_from_another_table.py` and
  `pick_front_crack.py` — the dual-arm splicing maneuvers.
* `src/task_setup_tube_crack/main.py` — the pipeline orchestrator
  `complete_roundtrip`.

Remote-service calls, the on-disk trajectory store and the configuration
constants are abstracted as explicit environments: each embedded function
takes the scripted responses of the calls it performs and returns its result
together with the trace of externally visible actions it would have issued.
Python `None` responses become `Option.none`; a Python exception escaping a
function is modelled by `Except.error`.  Float arithmetic on offsets is
modelled exactly over `ℚ`; the one square root the source takes
(`numpy.std`) is modelled by `Real.sqrt`.
-/

/-- A three-axis spatial offset, as the `[x, y, z]` float lists the source
passes around (`position_offset`, `runtime_shift_limits`, `base_shift`). -/
structure Vec3 where
  x : ℚ
  y : ℚ
  z : ℚ
deriving DecidableEq, Repr

/-- The per-axis bounds check of `safe_get_tf_shift` (util.py lines 79-84):
`over_limit` is set when some axis of the offset exceeds, in absolute value,
that axis's entry of `config["runtime_shift_limits"]`. -/
def overLimit (lim v : Vec3) : Bool :=
  decide (|v.x| > lim.x) || decide (|v.y| > lim.y) || decide (|v.z| > lim.z)

/-- An attempt is within tolerance when every axis's absolute offset is at
most that axis's limit, i.e. exactly when `overLimit` is false. -/
def withinLimits (lim v : Vec3) : Prop :=
  |v.x| ≤ lim.x ∧ |v.y| ≤ lim.y ∧ |v.z| ≤ lim.z

instance (lim v : Vec3) : Decidable (withinLimits lim v) := by
  unfold withinLimits; infer_instance

/-- Scripted environment for one iteration of the estimator's loop:
whether the `create_frame` call succeeds, and if it does, the
`position_offset` that `get_frame_offset` returns. -/
structure TfAttempt where
  createOk : Bool
  offset : Vec3
deriving DecidableEq, Repr

/-- The retry loop of `safe_get_tf_shift` (util.py lines 56-87) over the
scripted attempts.  Returns the accepted offset (if any), the recorded
history `history_shifts`, and the number of loop iterations consumed.
A failed `create_frame` consumes an iteration and records nothing; an
out-of-tolerance offset is recorded and the loop continues; a
within-tolerance offset is returned at once. -/
def tfLoop (lim : Vec3) : List TfAttempt → List Vec3 → Option Vec3 × List Vec3 × Nat
  | [], hist => (none, hist, 0)
  | a :: rest, hist =>
    if a.createOk = false then
      let r := tfLoop lim rest hist
      (r.1, r.2.1, r.2.2 + 1)
    else
      let hist' := hist ++ [a.offset]
      if overLimit lim a.offset then
        let r := tfLoop lim rest hist'
        (r.1, r.2.1, r.2.2 + 1)
      else
        (some a.offset, hist', 1)

/-- Mean of a list of rationals, as `numpy.mean` computes it on a nonempty
axis (on an empty list this Lean value is 0, but the embedding never uses
that case: see `tfFallback`). -/
def listMean (xs : List ℚ) : ℚ := xs.sum / xs.length

/-- Population variance, the square of `numpy.std` with the default
`ddof=0`. -/
def listVariance (xs : List ℚ) : ℚ :=
  (xs.map (fun v => (v - listMean xs) ^ 2)).sum / xs.length

/-- Per-axis mean of the recorded offsets, `history_shifts.mean(axis=0)`. -/
def meanVec (h : List Vec3) : Vec3 :=
  ⟨listMean (h.map Vec3.x), listMean (h.map Vec3.y), listMean (h.map Vec3.z)⟩

/-- Sum over the three axes of the per-axis standard deviation,
`sum(history_shifts.std(axis=0))` (util.py line 93). -/
noncomputable def sumStd (h : List Vec3) : ℝ :=
  Real.sqrt ((listVariance (h.map Vec3.x) : ℝ)) +
    Real.sqrt ((listVariance (h.map Vec3.y) : ℝ)) +
    Real.sqrt ((listVariance (h.map Vec3.z) : ℝ))

/-- The statistical fallback of `safe_get_tf_shift` (util.py lines 89-97).
On an empty history the source computes `mean`/`std` of an empty array
(0-dimensional `nan` scalars) and then applies the builtin `sum` to that
scalar, which raises `TypeError`; this is the `Except.error` branch.
Otherwise the mean is returned when the summed standard deviation is below
`0.01`, and `None` is returned when it is not. -/
noncomputable def tfFallback (hist : List Vec3) : Except Unit (Option Vec3) :=
  match hist with
  | [] => Except.error ()
  | _ :: _ =>
    if sumStd hist < 1 / 100 then Except.ok (some (meanVec hist)) else Except.ok none

/-- Embedding of `safe_get_tf_shift` (util.py lines 29-97): run the retry
loop over the scripted attempts and, when no attempt is accepted, the
statistical fallback.  The second component counts the loop iterations
consumed. -/
noncomputable def safe_get_tf_shift (lim : Vec3) (attempts : List TfAttempt) :
    Except Unit (Option Vec3) × Nat :=
  match tfLoop lim attempts [] with
  | (some v, _, n) => (Except.ok (some v), n)
  | (none, hist, n) => (tfFallback hist, n)

/-- Offsets recorded by the loop while skipping a run of attempts: the
offsets of those attempts whose frame creation succeeded. -/
def recordedShifts (l : List TfAttempt) : List Vec3 :=
  (l.filter (fun a => a.createOk)).map TfAttempt.offset

/-- Per-axis tolerance limits used in the C3 counterexample scenario. -/
def c3lim : Vec3 := ⟨1/1000, 1/1000, 1/1000⟩

/-- First out-of-tolerance sample of the C3 counterexample scenario. -/
def c3s1 : Vec3 := ⟨2/100, 2/100, 2/100⟩

/-- Second and third out-of-tolerance sample of the C3 counterexample. -/
def c3s2 : Vec3 := ⟨28/1000, 28/1000, 28/1000⟩

/-- The three scripted estimator attempts of the C3 counterexample. -/
def c3attempts : List TfAttempt := [⟨true, c3s1⟩, ⟨true, c3s2⟩, ⟨true, c3s2⟩]

/-- A waypoint of a trajectory file: the positions list of one entry of the
file's points array. -/
abbrev Waypoint := List ℚ

/-- A planner response dict: its status code and, under its traj_id, the
content of the trajectory file the validator reads back (the points array,
one waypoint per entry). -/
structure PlanResp where
  code : Nat
  points : List Waypoint
deriving DecidableEq, Repr

/-- Scripted environment for one iteration of a validator loop: the
response of the plan-only planning call (none models a Python None), and
the response run_traj would give if invoked on the planned trajectory. -/
structure MoveAttempt where
  plan : Option PlanResp
  run : Option Nat
deriving DecidableEq, Repr

/-- Result of safe_move_j and safe_fast_move_j_to: ok r models returning
the planner result dict of the accepted attempt, runFailed models the
return False after a failed run_traj, exhausted models the final return
None after the retry budget is consumed. -/
inductive MoveResult
  | ok (r : PlanResp)
  | runFailed
  | exhausted
deriving DecidableEq, Repr

/-- Embedding of `safe_fast_move_j_to` (util.py lines 100-150).  The
scripted attempt list plays the role of the `max_retry_times` loop budget:
one entry per iteration.  Returns the result together with the number of
plan-only planning calls and the number of run_traj calls issued.  A None
or non-200 planner response consumes the iteration, as does a plan whose
points count exceeds `traj_point_limit`; an accepted plan is run at once,
and a None or non-200 run_traj response makes the function return False
immediately. -/
def safe_fast_move_j_to (limit : Nat) : List MoveAttempt → MoveResult × Nat × Nat
  | [] => (.exhausted, 0, 0)
  | a :: rest =>
    match a.plan with
    | none =>
      let r := safe_fast_move_j_to limit rest
      (r.1, r.2.1 + 1, r.2.2)
    | some p =>
      if p.code ≠ 200 then
        let r := safe_fast_move_j_to limit rest
        (r.1, r.2.1 + 1, r.2.2)
      else if p.points.length > limit then
        let r := safe_fast_move_j_to limit rest
        (r.1, r.2.1 + 1, r.2.2)
      else
        match a.run with
        | none => (.runFailed, 1, 1)
        | some c => if c ≠ 200 then (.runFailed, 1, 1) else (.ok p, 1, 1)

/-- Embedding of `safe_move_j` (util.py lines 153-206), which differs from
`safe_fast_move_j_to` only in the planning call it issues (move_j with the
split body/left/right joint targets) and in unwrapping a list-valued
traj_id before reading the trajectory file; the attempt's PlanResp holds
the content of that file, so the control flow embeds identically. -/
def safe_move_j (limit : Nat) : List MoveAttempt → MoveResult × Nat × Nat
  | [] => (.exhausted, 0, 0)
  | a :: rest =>
    match a.plan with
    | none =>
      let r := safe_move_j limit rest
      (r.1, r.2.1 + 1, r.2.2)
    | some p =>
      if p.code ≠ 200 then
        let r := safe_move_j limit rest
        (r.1, r.2.1 + 1, r.2.2)
      else if p.points.length > limit then
        let r := safe_move_j limit rest
        (r.1, r.2.1 + 1, r.2.2)
      else
        match a.run with
        | none => (.runFailed, 1, 1)
        | some c => if c ≠ 200 then (.runFailed, 1, 1) else (.ok p, 1, 1)

/-- Modelled from the spec: `reverse_trajectory_file` is an explicit stub
in util.py lines 25-27 (marked as having no concrete implementation), so
its behaviour is taken from the specification, which describes reversal as
producing a new plan artifact whose waypoint sequence is the time reversal
of the input plan's waypoint sequence (spec sections 4.3 and 8). -/
def reverse_trajectory_file (t : List Waypoint) : List Waypoint := t.reverse

/-- The six subtasks of the pipeline and the two platform relocations, in
the order complete_roundtrip issues them. -/
inductive PipelineStep
  | pickCrackRemote
  | agvToLM8
  | setupFrontCrack
  | pushFrontCrack
  | pullOutCrack
  | pickFrontCrack
  | agvToLM4
  | putCrackOnTable
deriving DecidableEq, Repr

/-- Scripted boolean results of the six subtasks of complete_roundtrip. -/
structure PipelineEnv where
  pickCrackRemote : Bool
  setupFrontCrack : Bool
  pushFrontCrack : Bool
  pullOutCrack : Bool
  pickFrontCrack : Bool
  putCrackOnTable : Bool
deriving DecidableEq, Repr

/-- Embedding of `complete_roundtrip` (main.py lines 37-77).  Each subtask
result is checked in order; a False result returns False at once.  The
result is an Option Bool: some false models the explicit return False
branches, and none models falling off the end of the function after the
last subtask succeeds — the source has no return True, so Python returns
None implicitly.  The agv_move relocations are the stub that returns True
with its result unchecked; they appear in the trace only. -/
def complete_roundtrip (env : PipelineEnv) : Option Bool × List PipelineStep :=
  let t1 : List PipelineStep := [.pickCrackRemote]
  if env.pickCrackRemote = false then (some false, t1)
  else
    let t2 := t1 ++ [.agvToLM8, .setupFrontCrack]
    if env.setupFrontCrack = false then (some false, t2)
    else
      let t3 := t2 ++ [.pushFrontCrack]
      if env.pushFrontCrack = false then (some false, t3)
      else
        let t4 := t3 ++ [.pullOutCrack]
        if env.pullOutCrack = false then (some false, t4)
        else
          let t5 := t4 ++ [.pickFrontCrack]
          if env.pickFrontCrack = false then (some false, t5)
          else
            let t6 := t5 ++ [.agvToLM4, .putCrackOnTable]
            if env.putCrackOnTable = false then (some false, t6)
            else (none, t6)

/-- A run_traj (or generic service) response is successful exactly when it
is a dict with code 200; a Python None or any other code is a failure. -/
def runOk (r : Option Nat) : Bool := r == some 200

/-- Embedding of `safe_plan_fast_move_j_to_dual_arm` (util.py lines
208-247): repeat the plan-only dual-arm planning call until a response
with code 200 arrives and return it; if every scripted attempt fails, the
last response seen is returned (the source returns its result variable
unconditionally after the loop, and result starts as None). -/
def safe_plan_fast_move_j_to_dual_arm : List (Option PlanResp) → Option PlanResp
  | [] => none
  | [a] => a
  | a :: rest =>
    match a with
    | none => safe_plan_fast_move_j_to_dual_arm rest
    | some p =>
      if p.code = 200 then some p else safe_plan_fast_move_j_to_dual_arm rest

/-- Externally visible actions of a splicing subtask, in issue order:
running a trajectory file, commanding the grippers, invoking the dual-arm
plan-only wrapper, and the validated point-to-point move to a joint
target. -/
inductive Step
  | runTraj (file : String)
  | gripperCmd
  | planDualArm
  | safeMoveJTo (target : Waypoint)
deriving DecidableEq, Repr

/-- Scripted environment for `pick_crack_from_another_table`: the
responses of its run_traj calls, the estimator environment (tolerance
limits and per-attempt observations), the per-attempt responses of the
two dual-arm planning wrappers, and the validator environment of the
point-to-point move.  The offset-command strings built from the measured
shift (with its z entry masked to 0) and the base shift parameterize the
planner calls but no scripted response depends on them, so they are not
carried in the trace. -/
structure PickEnv where
  runObserve : Option Nat
  tfLimits : Vec3
  tfAttempts : List TfAttempt
  runPrepare : Option Nat
  plan1 : List (Option PlanResp)
  plan2 : List (Option PlanResp)
  move : List MoveAttempt
  runRev2 : Option Nat
  runRev1 : Option Nat
  runStatic : Option Nat

/-- Embedding of `pick_crack_from_another_table`
(`sub_tasks/pick_crack_from_another_table.py` lines 27-165).  Segment 1 is
planned from the static trajectory's end state and reversed into
tmp_dual_arm_traj_1_reversed.json; segment 2 is planned from the first
waypoint of that reversed file and reversed into
tmp_dual_arm_traj_2_reversed.json; the first waypoint of the second
reversed file is the target of the validated safe_move_j; after the grip
the reversed segments are replayed (2 then 1) and the static trajectory
resumes.  Reading the first waypoint of an empty reversed file would
raise IndexError, modelled by Except.error. -/
noncomputable def pick_crack_from_another_table (env : PickEnv) :
    Except Unit Bool × List Step :=
  let t0 : List Step := [.runTraj ("demo2/pick_crack_remote/1_to_observe_pose.json")]
  if runOk env.runObserve = false then (Except.ok false, t0)
  else
    match safe_get_tf_shift env.tfLimits env.tfAttempts with
    | (Except.error e, _) => (Except.error e, t0)
    | (Except.ok none, _) => (Except.ok false, t0)
    | (Except.ok (some _), _) =>
      let t1 := t0 ++ [.gripperCmd,
        .runTraj ("demo2/pick_crack_remote/2_to_pick_prepare.json")]
      if runOk env.runPrepare = false then (Except.ok false, t1)
      else
        let t2 := t1 ++ [.planDualArm]
        match safe_plan_fast_move_j_to_dual_arm env.plan1 with
        | none => (Except.ok false, t2)
        | some p1 =>
          if p1.code ≠ 200 then (Except.ok false, t2)
          else
            match reverse_trajectory_file p1.points with
            | [] => (Except.error (), t2)
            | _ :: _ =>
              let t3 := t2 ++ [.planDualArm]
              match safe_plan_fast_move_j_to_dual_arm env.plan2 with
              | none => (Except.ok false, t3)
              | some p2 =>
                if p2.code ≠ 200 then (Except.ok false, t3)
                else
                  match reverse_trajectory_file p2.points with
                  | [] => (Except.error (), t3)
                  | target :: _ =>
                    let t4 := t3 ++ [.safeMoveJTo target]
                    match safe_move_j 50 env.move with
                    | (.ok _, _, _) =>
                      let t5 := t4 ++ [.gripperCmd,
                        .runTraj ("tmp_dual_arm_traj_2_reversed.json")]
                      if runOk env.runRev2 = false then (Except.ok false, t5)
                      else
                        let t6 := t5 ++
                          [.runTraj ("tmp_dual_arm_traj_1_reversed.json")]
                        if runOk env.runRev1 = false then (Except.ok false, t6)
                        else
                          let t7 := t6 ++
                            [.runTraj ("demo2/pick_crack_remote/3_dual_arm_move_to_body.json")]
                          if runOk env.runStatic = false then (Except.ok false, t7)
                          else (Except.ok true, t7)
                    | (.runFailed, _, _) => (Except.ok false, t4)
                    | (.exhausted, _, _) => (Except.ok false, t4)

/-- Scripted environment for `pick_front_crack`, shaped like PickEnv but
with the four run_traj calls that precede the splicing phase. -/
structure PickFrontEnv where
  runPickPose : Option Nat
  runObserve : Option Nat
  tfLimits : Vec3
  tfAttempts : List TfAttempt
  runReady1 : Option Nat
  runReady2 : Option Nat
  plan1 : List (Option PlanResp)
  plan2 : List (Option PlanResp)
  move : List MoveAttempt
  runRev2 : Option Nat
  runRev1 : Option Nat
  runStatic : Option Nat

/-- Embedding of `pick_front_crack`
(`sub_tasks/pick_front_crack.py` lines 27-162), the same splicing maneuver
as pick_crack_from_another_table with its own approach trajectories, a
waypoint limit of 40 on the validated move, and the gripper commanded
after the two preparatory moves. -/
noncomputable def pick_front_crack (env : PickFrontEnv) :
    Except Unit Bool × List Step :=
  let t0 : List Step := [.runTraj ("demo2/pick_front_crack/1_to_pick_pose.json")]
  if runOk env.runPickPose = false then (Except.ok false, t0)
  else
    let ta := t0 ++ [.runTraj ("demo2/pick_front_crack/2_to_observe_front_tube.json")]
    if runOk env.runObserve = false then (Except.ok false, ta)
    else
      match safe_get_tf_shift env.tfLimits env.tfAttempts with
      | (Except.error e, _) => (Except.error e, ta)
      | (Except.ok none, _) => (Except.ok false, ta)
      | (Except.ok (some _), _) =>
        let tb := ta ++ [.runTraj ("demo2/pick_front_crack/3_to_pick_front_ready.json")]
        if runOk env.runReady1 = false then (Except.ok false, tb)
        else
          let tc := tb ++ [.runTraj ("demo2/pick_front_crack/4_to_pick_front_ready_2.json")]
          if runOk env.runReady2 = false then (Except.ok false, tc)
          else
            let t2 := tc ++ [.gripperCmd, .planDualArm]
            match safe_plan_fast_move_j_to_dual_arm env.plan1 with
            | none => (Except.ok false, t2)
            | some p1 =>
              if p1.code ≠ 200 then (Except.ok false, t2)
              else
                match reverse_trajectory_file p1.points with
                | [] => (Except.error (), t2)
                | _ :: _ =>
                  let t3 := t2 ++ [.planDualArm]
                  match safe_plan_fast_move_j_to_dual_arm env.plan2 with
                  | none => (Except.ok false, t3)
                  | some p2 =>
                    if p2.code ≠ 200 then (Except.ok false, t3)
                    else
                      match reverse_trajectory_file p2.points with
                      | [] => (Except.error (), t3)
                      | target :: _ =>
                        let t4 := t3 ++ [.safeMoveJTo target]
                        match safe_move_j 40 env.move with
                        | (.ok _, _, _) =>
                          let t5 := t4 ++ [.gripperCmd,
                            .runTraj ("tmp_dual_arm_traj_2_reversed.json")]
                          if runOk env.runRev2 = false then (Except.ok false, t5)
                          else
                            let t6 := t5 ++
                              [.runTraj ("tmp_dual_arm_traj_1_reversed.json")]
                            if runOk env.runRev1 = false then (Except.ok false, t6)
                            else
                              let t7 := t6 ++
                                [.runTraj ("demo2/pick_front_crack/dual_arm_pick_to_body.json")]
                              if runOk env.runStatic = false then (Except.ok false, t7)
                              else (Except.ok true, t7)
                        | (.runFailed, _, _) => (Except.ok false, t4)
                        | (.exhausted, _, _) => (Except.ok false, t4)

theorem overLimit_eq_false_iff (lim v : Vec3) :
    overLimit lim v = false ↔ withinLimits lim v := by
  simp [overLimit, withinLimits, not_lt, and_assoc]

theorem tfLoop_cons_createFail (lim : Vec3) (a : TfAttempt) (rest : List TfAttempt)
    (hist : List Vec3) (hb : a.createOk = false) :
    tfLoop lim (a :: rest) hist =
      ((tfLoop lim rest hist).1, (tfLoop lim rest hist).2.1,
       (tfLoop lim rest hist).2.2 + 1) := by
  simp [tfLoop, hb]

theorem tfLoop_cons_over (lim : Vec3) (a : TfAttempt) (rest : List TfAttempt)
    (hist : List Vec3) (hb : a.createOk = true)
    (hov : overLimit lim a.offset = true) :
    tfLoop lim (a :: rest) hist =
      ((tfLoop lim rest (hist ++ [a.offset])).1,
       (tfLoop lim rest (hist ++ [a.offset])).2.1,
       (tfLoop lim rest (hist ++ [a.offset])).2.2 + 1) := by
  simp [tfLoop, hb, hov]

theorem tfLoop_cons_accept (lim : Vec3) (a : TfAttempt) (rest : List TfAttempt)
    (hist : List Vec3) (hb : a.createOk = true)
    (hov : overLimit lim a.offset = false) :
    tfLoop lim (a :: rest) hist = (some a.offset, hist ++ [a.offset], 1) := by
  simp [tfLoop, hb, hov]

theorem tfLoop_append_rejected (lim : Vec3) (pre l : List TfAttempt)
    (hist : List Vec3)
    (hpre : ∀ b ∈ pre, b.createOk = true → overLimit lim b.offset = true) :
    tfLoop lim (pre ++ l) hist =
      ((tfLoop lim l (hist ++ recordedShifts pre)).1,
       (tfLoop lim l (hist ++ recordedShifts pre)).2.1,
       (tfLoop lim l (hist ++ recordedShifts pre)).2.2 + pre.length) := by
  induction pre generalizing hist with
  | nil => simp [recordedShifts]
  | cons b pre ih =>
    have htail : ∀ c ∈ pre, c.createOk = true → overLimit lim c.offset = true :=
      fun c hc h => hpre c (List.mem_cons_of_mem _ hc) h
    rcases hb : b.createOk with _ | _
    · rw [List.cons_append, tfLoop_cons_createFail lim b (pre ++ l) hist hb,
        ih hist htail]
      simp [recordedShifts, List.filter_cons, hb]
      omega
    · have hover := hpre b (List.mem_cons_self b pre) hb
      rw [List.cons_append, tfLoop_cons_over lim b (pre ++ l) hist hb hover,
        ih (hist ++ [b.offset]) htail]
      simp [recordedShifts, List.filter_cons, hb]
      omega

theorem overLimit_eq_true_iff (lim v : Vec3) :
    overLimit lim v = true ↔ ¬ withinLimits lim v := by
  rw [← overLimit_eq_false_iff]
  rcases h : overLimit lim v with _ | _ <;> simp

theorem tfLoop_all_rejected (lim : Vec3) (l : List TfAttempt) (hist : List Vec3)
    (h : ∀ a ∈ l, a.createOk = true → overLimit lim a.offset = true) :
    tfLoop lim l hist = (none, hist ++ recordedShifts l, l.length) := by
  have h2 := tfLoop_append_rejected lim l [] hist h
  rw [List.append_nil] at h2
  rw [h2]
  simp [tfLoop]

/-- C7: in safe_get_tf_shift an observation attempt is accepted, its offset
returned immediately and unmodified, only if every axis's absolute offset is
within that axis's tolerance; an out-of-tolerance attempt's offset is
recorded into the history and the loop continues with the next attempt.
Conjunct 1: the first within-tolerance attempt after any run of rejected
attempts is returned unmodified, consuming exactly the attempts up to and
including it.  Conjunct 2: an out-of-tolerance attempt records its offset
and the loop continues.  Conjunct 3: any offset the loop accepts is within
tolerance on every axis. -/
theorem safe_get_tf_shift_within_tolerance_acceptance :
    (∀ (lim : Vec3) (pre : List TfAttempt) (a : TfAttempt) (post : List TfAttempt),
      (∀ b ∈ pre, b.createOk = true → ¬ withinLimits lim b.offset) →
      a.createOk = true → withinLimits lim a.offset →
      safe_get_tf_shift lim (pre ++ a :: post) =
        (Except.ok (some a.offset), pre.length + 1)) ∧
    (∀ (lim : Vec3) (a : TfAttempt) (rest : List TfAttempt) (hist : List Vec3),
      a.createOk = true → ¬ withinLimits lim a.offset →
      tfLoop lim (a :: rest) hist =
        ((tfLoop lim rest (hist ++ [a.offset])).1,
         (tfLoop lim rest (hist ++ [a.offset])).2.1,
         (tfLoop lim rest (hist ++ [a.offset])).2.2 + 1)) ∧
    (∀ (lim : Vec3) (attempts : List TfAttempt) (hist hist2 : List Vec3)
       (v : Vec3) (n : ℕ),
      tfLoop lim attempts hist = (some v, hist2, n) → withinLimits lim v) := by
  refine ⟨?_, ?_, ?_⟩
  · intro lim pre a post hpre ha hwithin
    have hov : overLimit lim a.offset = false :=
      (overLimit_eq_false_iff lim a.offset).mpr hwithin
    have hpre2 : ∀ b ∈ pre, b.createOk = true → overLimit lim b.offset = true := by
      intro b hb hcb
      exact (overLimit_eq_true_iff lim b.offset).mpr (hpre b hb hcb)
    unfold safe_get_tf_shift
    rw [tfLoop_append_rejected lim pre (a :: post) [] hpre2,
        tfLoop_cons_accept lim a post _ ha hov]
    simp [Nat.add_comm]
  · intro lim a rest hist ha hnot
    exact tfLoop_cons_over lim a rest hist ha
      ((overLimit_eq_true_iff lim a.offset).mpr hnot)
  · intro lim attempts
    induction attempts with
    | nil => intro hist hist2 v n h; simp [tfLoop] at h
    | cons a rest ih =>
      intro hist hist2 v n h
      rcases hb : a.createOk with _ | _
      · rw [tfLoop_cons_createFail lim a rest hist hb] at h
        have h1 : (tfLoop lim rest hist).1 = some v := by
          simpa using congrArg Prod.fst h
        refine ih hist (tfLoop lim rest hist).2.1 v (tfLoop lim rest hist).2.2 ?_
        rw [← h1]
      · rcases hov : overLimit lim a.offset with _ | _
        · rw [tfLoop_cons_accept lim a rest hist hb hov] at h
          have h1 : some a.offset = some v := by
            simpa using congrArg Prod.fst h
          cases h1
          exact (overLimit_eq_false_iff lim a.offset).mp hov
        · rw [tfLoop_cons_over lim a rest hist hb hov] at h
          have h1 : (tfLoop lim rest (hist ++ [a.offset])).1 = some v := by
            simpa using congrArg Prod.fst h
          refine ih (hist ++ [a.offset])
            (tfLoop lim rest (hist ++ [a.offset])).2.1 v
            (tfLoop lim rest (hist ++ [a.offset])).2.2 ?_
          rw [← h1]

/-- Witness for C7: a concrete rejected attempt followed by a concrete
within-tolerance attempt, accepted as the second attempt with its offset
returned unmodified. -/
theorem safe_get_tf_shift_within_tolerance_acceptance_witness :
    safe_get_tf_shift ⟨1, 1, 1⟩ [⟨true, ⟨2, 0, 0⟩⟩, ⟨true, ⟨0, 1, 0⟩⟩] =
      (Except.ok (some ⟨0, 1, 0⟩), 2) := by
  have h := safe_get_tf_shift_within_tolerance_acceptance.1 ⟨1, 1, 1⟩
    [⟨true, ⟨2, 0, 0⟩⟩] ⟨true, ⟨0, 1, 0⟩⟩ [] (by decide) (by decide) (by decide)
  exact h

theorem c3_variance_eval :
    listVariance ([c3s1, c3s2, c3s2].map Vec3.x) = 16/1125000 ∧
    listVariance ([c3s1, c3s2, c3s2].map Vec3.y) = 16/1125000 ∧
    listVariance ([c3s1, c3s2, c3s2].map Vec3.z) = 16/1125000 := by
  refine ⟨?_, ?_, ?_⟩ <;> norm_num [listVariance, listMean, c3s1, c3s2]

theorem c3_sumStd_ge : (1/100 : ℝ) ≤ sumStd [c3s1, c3s2, c3s2] := by
  obtain ⟨hx, hy, hz⟩ := c3_variance_eval
  unfold sumStd
  rw [hx, hy, hz]
  have h : (1/300 : ℝ) ≤ Real.sqrt ((16/1125000 : ℚ) : ℝ) := by
    rw [Real.le_sqrt' (by norm_num)]
    push_cast
    norm_num
  linarith

/-- Counterexample to C3: the three recorded out-of-tolerance samples
(c3s1 and twice c3s2, so the only nonzero pairwise distance is between
c3s1 and c3s2) are pairwise closer than 0.01 on every axis, yet the
fallback of safe_get_tf_shift returns failure (None, not their mean),
because the criterion the code applies is summed standard deviation below
0.01, which these samples violate. -/
theorem c3_pairwise_close_returns_none :
    |c3s1.x - c3s2.x| < 1/100 ∧ |c3s1.y - c3s2.y| < 1/100 ∧
    |c3s1.z - c3s2.z| < 1/100 ∧ |c3s2.x - c3s2.x| < 1/100 ∧
    |c3s2.y - c3s2.y| < 1/100 ∧ |c3s2.z - c3s2.z| < 1/100 ∧
    overLimit c3lim c3s1 = true ∧ overLimit c3lim c3s2 = true ∧
    safe_get_tf_shift c3lim c3attempts = (Except.ok none, 3) := by
  have hov1 : overLimit c3lim c3s1 = true :=
    (overLimit_eq_true_iff _ _).mpr
      (by norm_num [withinLimits, c3lim, c3s1, abs_le])
  have hov2 : overLimit c3lim c3s2 = true :=
    (overLimit_eq_true_iff _ _).mpr
      (by norm_num [withinLimits, c3lim, c3s2, abs_le])
  refine ⟨by norm_num [c3s1, c3s2, abs_lt], by norm_num [c3s1, c3s2, abs_lt],
    by norm_num [c3s1, c3s2, abs_lt], by norm_num, by norm_num, by norm_num,
    hov1, hov2, ?_⟩
  have hrej : ∀ a ∈ c3attempts, a.createOk = true →
      overLimit c3lim a.offset = true := by
    intro a ha _
    fin_cases ha
    · exact hov1
    · exact hov2
    · exact hov2
  unfold safe_get_tf_shift
  rw [tfLoop_all_rejected c3lim c3attempts [] hrej]
  show (tfFallback [c3s1, c3s2, c3s2], 3) = (Except.ok none, 3)
  show (if sumStd [c3s1, c3s2, c3s2] < 1 / 100 then
      Except.ok (some (meanVec [c3s1, c3s2, c3s2])) else Except.ok none, 3) = _
  rw [if_neg (not_lt.mpr c3_sumStd_ge)]

/-- C3 as amended: when no attempt is accepted and the recorded history is
nonempty, the estimator returns the per-axis mean of the recorded samples
exactly when the sum over the axes of the per-axis standard deviation is
below 0.01; pairwise closeness of the samples is not the criterion the code
applies. -/
theorem safe_get_tf_shift_mean_of_small_std :
    ∀ (lim : Vec3) (attempts : List TfAttempt) (hist : List Vec3) (n : ℕ),
      tfLoop lim attempts [] = (none, hist, n) → hist ≠ [] →
      sumStd hist < 1/100 →
      safe_get_tf_shift lim attempts = (Except.ok (some (meanVec hist)), n) := by
  intro lim attempts hist n hloop hne hstd
  unfold safe_get_tf_shift
  rw [hloop]
  cases hist with
  | nil => exact absurd rfl hne
  | cons a t =>
    show (tfFallback (a :: t), n) = _
    show (if sumStd (a :: t) < 1 / 100 then
        Except.ok (some (meanVec (a :: t))) else Except.ok none, n) = _
    rw [if_pos hstd]

/-- Witness for the amended C3: three identical out-of-tolerance samples
have zero standard deviation on every axis, so the estimator returns their
mean, which is the common sample itself. -/
theorem safe_get_tf_shift_mean_of_small_std_witness :
    safe_get_tf_shift ⟨1/1000, 1/1000, 1/1000⟩
        [⟨true, ⟨1, 0, 0⟩⟩, ⟨true, ⟨1, 0, 0⟩⟩, ⟨true, ⟨1, 0, 0⟩⟩] =
      (Except.ok (some ⟨1, 0, 0⟩), 3) := by
  have hstd : sumStd [(⟨1, 0, 0⟩ : Vec3), ⟨1, 0, 0⟩, ⟨1, 0, 0⟩] < 1/100 := by
    unfold sumStd
    rw [show listVariance ([(⟨1, 0, 0⟩ : Vec3), ⟨1, 0, 0⟩, ⟨1, 0, 0⟩].map Vec3.x) = 0
          from by norm_num [listVariance, listMean],
        show listVariance ([(⟨1, 0, 0⟩ : Vec3), ⟨1, 0, 0⟩, ⟨1, 0, 0⟩].map Vec3.y) = 0
          from by norm_num [listVariance, listMean],
        show listVariance ([(⟨1, 0, 0⟩ : Vec3), ⟨1, 0, 0⟩, ⟨1, 0, 0⟩].map Vec3.z) = 0
          from by norm_num [listVariance, listMean]]
    norm_num [Real.sqrt_zero]
  have hrej : ∀ a ∈ [(⟨true, ⟨1, 0, 0⟩⟩ : TfAttempt), ⟨true, ⟨1, 0, 0⟩⟩,
      ⟨true, ⟨1, 0, 0⟩⟩], a.createOk = true → overLimit ⟨1/1000, 1/1000, 1/1000⟩
        a.offset = true := by
    intro a ha _
    fin_cases ha <;>
      exact (overLimit_eq_true_iff _ _).mpr
        (by norm_num [withinLimits, abs_le])
  have hloop := tfLoop_all_rejected ⟨1/1000, 1/1000, 1/1000⟩
    [⟨true, ⟨1, 0, 0⟩⟩, ⟨true, ⟨1, 0, 0⟩⟩, ⟨true, ⟨1, 0, 0⟩⟩] [] hrej
  have h := safe_get_tf_shift_mean_of_small_std ⟨1/1000, 1/1000, 1/1000⟩
    [⟨true, ⟨1, 0, 0⟩⟩, ⟨true, ⟨1, 0, 0⟩⟩, ⟨true, ⟨1, 0, 0⟩⟩]
    [⟨1, 0, 0⟩, ⟨1, 0, 0⟩, ⟨1, 0, 0⟩] 3 hloop (by simp) hstd
  rw [h]
  rw [show meanVec [(⟨1, 0, 0⟩ : Vec3), ⟨1, 0, 0⟩, ⟨1, 0, 0⟩] = ⟨1, 0, 0⟩
        from by norm_num [meanVec, listMean]]

/-- C10 (the code at the claimed input): when every frame-creation attempt
fails, the recorded history is empty and the fallback raises (models the
TypeError from applying the builtin sum to the 0-dimensional numpy scalar
std of an empty array) instead of returning None. -/
theorem safe_get_tf_shift_all_create_failed_raises :
    safe_get_tf_shift ⟨1/100, 1/100, 1/100⟩
        [⟨false, ⟨0, 0, 0⟩⟩, ⟨false, ⟨0, 0, 0⟩⟩, ⟨false, ⟨0, 0, 0⟩⟩] =
      (Except.error (), 3) := by
  unfold safe_get_tf_shift
  rw [tfLoop_all_rejected ⟨1/100, 1/100, 1/100⟩
    [⟨false, ⟨0, 0, 0⟩⟩, ⟨false, ⟨0, 0, 0⟩⟩, ⟨false, ⟨0, 0, 0⟩⟩] []
    (by intro a ha h; fin_cases ha <;> simp at h)]
  rfl

/-- C1: when the first planning attempt succeeds (code 200) and its plan
has at most `limit` waypoints, both validators accept on the first
attempt: exactly one plan-only planning call and exactly one run_traj call
are issued, and when that run_traj call succeeds the accepted plan's
result is returned. -/
theorem validator_accepts_within_limit_first_attempt :
    ∀ (limit : Nat) (a : MoveAttempt) (rest : List MoveAttempt) (p : PlanResp),
      a.plan = some p → p.code = 200 → p.points.length ≤ limit →
      ((safe_move_j limit (a :: rest)).2.1 = 1 ∧
       (safe_move_j limit (a :: rest)).2.2 = 1 ∧
       (safe_fast_move_j_to limit (a :: rest)).2.1 = 1 ∧
       (safe_fast_move_j_to limit (a :: rest)).2.2 = 1) ∧
      (a.run = some 200 →
        safe_move_j limit (a :: rest) = (.ok p, 1, 1) ∧
        safe_fast_move_j_to limit (a :: rest) = (.ok p, 1, 1)) := by
  intro limit a rest p hp hc hl
  have hgt : ¬ (p.points.length > limit) := not_lt.mpr hl
  rcases hrun : a.run with _ | c
  · simp [safe_move_j, safe_fast_move_j_to, hp, hc, hgt, hrun]
  · by_cases h200 : c = 200 <;>
      simp [safe_move_j, safe_fast_move_j_to, hp, hc, hgt, hrun, h200]

/-- Witness for C1: a single attempt with a successful two-waypoint plan
under limit 50 and a successful execution. -/
theorem validator_accepts_within_limit_first_attempt_witness :
    safe_move_j 50 [⟨some ⟨200, [[1], [2]]⟩, some 200⟩] =
        (.ok ⟨200, [[1], [2]]⟩, 1, 1) ∧
    safe_fast_move_j_to 50 [⟨some ⟨200, [[1], [2]]⟩, some 200⟩] =
        (.ok ⟨200, [[1], [2]]⟩, 1, 1) := by
  exact (validator_accepts_within_limit_first_attempt 50
    ⟨some ⟨200, [[1], [2]]⟩, some 200⟩ [] ⟨200, [[1], [2]]⟩
    rfl rfl (by decide)).2 rfl

/-- C2: when every attempt's planner response is None, non-200, or a plan
with more waypoints than the limit, both validators consume the whole
scripted retry budget, issue no run_traj call, and return None
(exhausted). -/
theorem validator_exhausts_without_executing :
    ∀ (limit : Nat) (attempts : List MoveAttempt),
      (∀ a ∈ attempts, ∀ p, a.plan = some p →
        p.code ≠ 200 ∨ p.points.length > limit) →
      safe_move_j limit attempts = (.exhausted, attempts.length, 0) ∧
      safe_fast_move_j_to limit attempts = (.exhausted, attempts.length, 0) := by
  intro limit attempts h
  induction attempts with
  | nil => constructor <;> rfl
  | cons a rest ih =>
    have htail := ih (fun b hb => h b (List.mem_cons_of_mem _ hb))
    rcases hp : a.plan with _ | p
    · simp [safe_move_j, safe_fast_move_j_to, hp, htail.1, htail.2]
    · rcases h a (List.mem_cons_self a rest) p hp with hcode | hlen
      · simp [safe_move_j, safe_fast_move_j_to, hp, hcode, htail.1, htail.2]
      · rcases hc : decide (p.code = 200) with _ | _
        · simp at hc
          simp [safe_move_j, safe_fast_move_j_to, hp, hc, htail.1, htail.2]
        · simp at hc
          simp [safe_move_j, safe_fast_move_j_to, hp, hc, hlen, htail.1, htail.2]

/-- Witness for C2: two attempts, the first a planner failure (non-200),
the second an over-limit three-waypoint plan under limit 2; both
validators exhaust both attempts and never execute. -/
theorem validator_exhausts_without_executing_witness :
    safe_move_j 2 [⟨some ⟨500, []⟩, some 200⟩,
        ⟨some ⟨200, [[1], [2], [3]]⟩, some 200⟩] = (.exhausted, 2, 0) ∧
    safe_fast_move_j_to 2 [⟨some ⟨500, []⟩, some 200⟩,
        ⟨some ⟨200, [[1], [2], [3]]⟩, some 200⟩] = (.exhausted, 2, 0) := by
  exact validator_exhausts_without_executing 2
    [⟨some ⟨500, []⟩, some 200⟩, ⟨some ⟨200, [[1], [2], [3]]⟩, some 200⟩]
    (by decide)

/-- C6: once a plan has been accepted (planner code 200, waypoint count at
most the limit), a failed run_traj response (None or non-200) makes both
validators return the failure result (False) at once: exactly one planning
call and one run_traj call happen, independently of how much retry budget
remains. -/
theorem validator_run_failure_is_fatal :
    ∀ (limit : Nat) (a : MoveAttempt) (rest : List MoveAttempt) (p : PlanResp),
      a.plan = some p → p.code = 200 → p.points.length ≤ limit →
      a.run ≠ some 200 →
      safe_move_j limit (a :: rest) = (.runFailed, 1, 1) ∧
      safe_fast_move_j_to limit (a :: rest) = (.runFailed, 1, 1) := by
  intro limit a rest p hp hc hl hr
  have hgt : ¬ (p.points.length > limit) := not_lt.mpr hl
  rcases hrun : a.run with _ | c
  · simp [safe_move_j, safe_fast_move_j_to, hp, hc, hgt, hrun]
  · have hc200 : c ≠ 200 := by
      intro h
      exact hr (by rw [hrun, h])
    simp [safe_move_j, safe_fast_move_j_to, hp, hc, hgt, hrun, hc200]

/-- Witness for C6: an accepted one-waypoint plan whose execution returns
a 500 code; the validators stop with the failure result even though four
more scripted attempts remain. -/
theorem validator_run_failure_is_fatal_witness :
    safe_move_j 50 [⟨some ⟨200, [[1]]⟩, some 500⟩,
        ⟨some ⟨200, [[1]]⟩, some 200⟩, ⟨some ⟨200, [[1]]⟩, some 200⟩,
        ⟨some ⟨200, [[1]]⟩, some 200⟩, ⟨some ⟨200, [[1]]⟩, some 200⟩] =
      (.runFailed, 1, 1) ∧
    safe_fast_move_j_to 50 [⟨some ⟨200, [[1]]⟩, some 500⟩,
        ⟨some ⟨200, [[1]]⟩, some 200⟩, ⟨some ⟨200, [[1]]⟩, some 200⟩,
        ⟨some ⟨200, [[1]]⟩, some 200⟩, ⟨some ⟨200, [[1]]⟩, some 200⟩] =
      (.runFailed, 1, 1) := by
  exact validator_run_failure_is_fatal 50 ⟨some ⟨200, [[1]]⟩, some 500⟩
    [⟨some ⟨200, [[1]]⟩, some 200⟩, ⟨some ⟨200, [[1]]⟩, some 200⟩,
     ⟨some ⟨200, [[1]]⟩, some 200⟩, ⟨some ⟨200, [[1]]⟩, some 200⟩]
    ⟨200, [[1]]⟩ rfl rfl (by decide) (by decide)

/-- C4: reversing a two-waypoint plan yields the two waypoints swapped,
and reversing a reversed plan reproduces the original waypoint order. -/
theorem reverse_trajectory_file_involutive :
    (∀ A B : Waypoint, reverse_trajectory_file [A, B] = [B, A]) ∧
    (∀ t : List Waypoint,
      reverse_trajectory_file (reverse_trajectory_file t) = t) :=
  ⟨fun _ _ => rfl, fun t => List.reverse_reverse t⟩

/-- C8: whichever subtask fails first, the pipeline reports failure
immediately and no later subtask appears in the trace; in particular a
failure of the third subtask (push) leaves subtasks four to six
uninvoked. -/
theorem pipeline_aborts_on_first_failure :
    ∀ env : PipelineEnv,
      (env.pickCrackRemote = false →
        complete_roundtrip env = (some false, [.pickCrackRemote])) ∧
      (env.pickCrackRemote = true → env.setupFrontCrack = false →
        complete_roundtrip env =
          (some false, [.pickCrackRemote, .agvToLM8, .setupFrontCrack])) ∧
      (env.pickCrackRemote = true → env.setupFrontCrack = true →
       env.pushFrontCrack = false →
        complete_roundtrip env =
          (some false, [.pickCrackRemote, .agvToLM8, .setupFrontCrack,
            .pushFrontCrack])) ∧
      (env.pickCrackRemote = true → env.setupFrontCrack = true →
       env.pushFrontCrack = true → env.pullOutCrack = false →
        complete_roundtrip env =
          (some false, [.pickCrackRemote, .agvToLM8, .setupFrontCrack,
            .pushFrontCrack, .pullOutCrack])) ∧
      (env.pickCrackRemote = true → env.setupFrontCrack = true →
       env.pushFrontCrack = true → env.pullOutCrack = true →
       env.pickFrontCrack = false →
        complete_roundtrip env =
          (some false, [.pickCrackRemote, .agvToLM8, .setupFrontCrack,
            .pushFrontCrack, .pullOutCrack, .pickFrontCrack])) ∧
      (env.pickCrackRemote = true → env.setupFrontCrack = true →
       env.pushFrontCrack = true → env.pullOutCrack = true →
       env.pickFrontCrack = true → env.putCrackOnTable = false →
        complete_roundtrip env =
          (some false, [.pickCrackRemote, .agvToLM8, .setupFrontCrack,
            .pushFrontCrack, .pullOutCrack, .pickFrontCrack, .agvToLM4,
            .putCrackOnTable])) := by
  intro env
  refine ⟨?_, ?_, ?_, ?_, ?_, ?_⟩ <;>
    intros <;>
    simp_all [complete_roundtrip]

/-- Witness for C8: subtask three (push) fails while everything before it
succeeded; the pipeline stops there with a failure, and the trace shows
subtasks four to six were never invoked. -/
theorem pipeline_aborts_on_first_failure_witness :
    complete_roundtrip ⟨true, true, false, true, true, true⟩ =
      (some false, [.pickCrackRemote, .agvToLM8, .setupFrontCrack,
        .pushFrontCrack]) :=
  (pipeline_aborts_on_first_failure
    ⟨true, true, false, true, true, true⟩).2.2.1 rfl rfl rfl

/-- C9 (the code at the claimed input): when every subtask succeeds,
complete_roundtrip falls off the end and returns None rather than the True
its docstring promises; it never returns some true for any environment. -/
theorem complete_roundtrip_never_returns_true :
    complete_roundtrip ⟨true, true, true, true, true, true⟩ =
      (none, [.pickCrackRemote, .agvToLM8, .setupFrontCrack,
        .pushFrontCrack, .pullOutCrack, .pickFrontCrack, .agvToLM4,
        .putCrackOnTable]) ∧
    ∀ env : PipelineEnv,
      (complete_roundtrip env).1 = none ∨
      (complete_roundtrip env).1 = some false := by
  refine ⟨rfl, ?_⟩
  intro env
  unfold complete_roundtrip
  split_ifs <;> simp

/-- C5: in both splicing maneuvers, on the successful path the target of
the validated point-to-point move is the first waypoint of the innermost
(second) reversed segment, and after the grip action the reversed
segments are played innermost first (segment 2 reversed, then segment 1
reversed) before the static trajectory resumes. -/
theorem splice_target_and_replay_order :
    (∀ (env : PickEnv) (s : Vec3) (k : ℕ) (p1 p2 : PlanResp)
       (w1 target : Waypoint) (l1 l2 : List Waypoint) (m : PlanResp) (pc rc : ℕ),
      runOk env.runObserve = true →
      safe_get_tf_shift env.tfLimits env.tfAttempts = (Except.ok (some s), k) →
      runOk env.runPrepare = true →
      safe_plan_fast_move_j_to_dual_arm env.plan1 = some p1 → p1.code = 200 →
      reverse_trajectory_file p1.points = w1 :: l1 →
      safe_plan_fast_move_j_to_dual_arm env.plan2 = some p2 → p2.code = 200 →
      reverse_trajectory_file p2.points = target :: l2 →
      safe_move_j 50 env.move = (.ok m, pc, rc) →
      runOk env.runRev2 = true → runOk env.runRev1 = true →
      runOk env.runStatic = true →
      pick_crack_from_another_table env = (Except.ok true,
        [.runTraj ("demo2/pick_crack_remote/1_to_observe_pose.json"),
         .gripperCmd,
         .runTraj ("demo2/pick_crack_remote/2_to_pick_prepare.json"),
         .planDualArm, .planDualArm,
         .safeMoveJTo target,
         .gripperCmd,
         .runTraj ("tmp_dual_arm_traj_2_reversed.json"),
         .runTraj ("tmp_dual_arm_traj_1_reversed.json"),
         .runTraj ("demo2/pick_crack_remote/3_dual_arm_move_to_body.json")])) ∧
    (∀ (env : PickFrontEnv) (s : Vec3) (k : ℕ) (p1 p2 : PlanResp)
       (w1 target : Waypoint) (l1 l2 : List Waypoint) (m : PlanResp) (pc rc : ℕ),
      runOk env.runPickPose = true → runOk env.runObserve = true →
      safe_get_tf_shift env.tfLimits env.tfAttempts = (Except.ok (some s), k) →
      runOk env.runReady1 = true → runOk env.runReady2 = true →
      safe_plan_fast_move_j_to_dual_arm env.plan1 = some p1 → p1.code = 200 →
      reverse_trajectory_file p1.points = w1 :: l1 →
      safe_plan_fast_move_j_to_dual_arm env.plan2 = some p2 → p2.code = 200 →
      reverse_trajectory_file p2.points = target :: l2 →
      safe_move_j 40 env.move = (.ok m, pc, rc) →
      runOk env.runRev2 = true → runOk env.runRev1 = true →
      runOk env.runStatic = true →
      pick_front_crack env = (Except.ok true,
        [.runTraj ("demo2/pick_front_crack/1_to_pick_pose.json"),
         .runTraj ("demo2/pick_front_crack/2_to_observe_front_tube.json"),
         .runTraj ("demo2/pick_front_crack/3_to_pick_front_ready.json"),
         .runTraj ("demo2/pick_front_crack/4_to_pick_front_ready_2.json"),
         .gripperCmd,
         .planDualArm, .planDualArm,
         .safeMoveJTo target,
         .gripperCmd,
         .runTraj ("tmp_dual_arm_traj_2_reversed.json"),
         .runTraj ("tmp_dual_arm_traj_1_reversed.json"),
         .runTraj ("demo2/pick_front_crack/dual_arm_pick_to_body.json")])) := by
  constructor
  · intro env s k p1 p2 w1 target l1 l2 m pc rc
    intro hObs hTf hPrep hPlan1 hCode1 hRev1 hPlan2 hCode2 hRev2 hMove
    intro hRunRev2 hRunRev1 hRunStatic
    unfold pick_crack_from_another_table
    rw [hObs, hTf, hPrep, hPlan1, hPlan2, hMove,
      hRunRev2, hRunRev1, hRunStatic]
    simp [hCode1, hCode2, hRev1, hRev2]
  · intro env s k p1 p2 w1 target l1 l2 m pc rc
    intro hPick hObs hTf hReady1 hReady2 hPlan1 hCode1 hRev1 hPlan2 hCode2 hRev2
    intro hMove hRunRev2 hRunRev1 hRunStatic
    unfold pick_front_crack
    rw [hPick, hObs, hTf, hReady1, hReady2, hPlan1, hPlan2, hMove,
      hRunRev2, hRunRev1, hRunStatic]
    simp [hCode1, hCode2, hRev1, hRev2]

/-- Witness for C5: concrete successful environments for both maneuvers.
Segment 2 plans the waypoints [[3], [4]], so its reversed first waypoint
[4] is the validated move target, and the replay order after the grip is
segment 2 reversed, segment 1 reversed, then the static trajectory. -/
theorem splice_target_and_replay_order_witness :
    pick_crack_from_another_table
        ⟨some 200, ⟨1, 1, 1⟩, [⟨true, ⟨0, 0, 0⟩⟩], some 200,
         [some ⟨200, [[1], [2]]⟩], [some ⟨200, [[3], [4]]⟩],
         [⟨some ⟨200, [[5]]⟩, some 200⟩], some 200, some 200, some 200⟩ =
      (Except.ok true,
        [.runTraj ("demo2/pick_crack_remote/1_to_observe_pose.json"),
         .gripperCmd,
         .runTraj ("demo2/pick_crack_remote/2_to_pick_prepare.json"),
         .planDualArm, .planDualArm,
         .safeMoveJTo [4],
         .gripperCmd,
         .runTraj ("tmp_dual_arm_traj_2_reversed.json"),
         .runTraj ("tmp_dual_arm_traj_1_reversed.json"),
         .runTraj ("demo2/pick_crack_remote/3_dual_arm_move_to_body.json")]) ∧
    pick_front_crack
        ⟨some 200, some 200, ⟨1, 1, 1⟩, [⟨true, ⟨0, 0, 0⟩⟩], some 200,
         some 200, [some ⟨200, [[1], [2]]⟩], [some ⟨200, [[3], [4]]⟩],
         [⟨some ⟨200, [[5]]⟩, some 200⟩], some 200, some 200, some 200⟩ =
      (Except.ok true,
        [.runTraj ("demo2/pick_front_crack/1_to_pick_pose.json"),
         .runTraj ("demo2/pick_front_crack/2_to_observe_front_tube.json"),
         .runTraj ("demo2/pick_front_crack/3_to_pick_front_ready.json"),
         .runTraj ("demo2/pick_front_crack/4_to_pick_front_ready_2.json"),
         .gripperCmd,
         .planDualArm, .planDualArm,
         .safeMoveJTo [4],
         .gripperCmd,
         .runTraj ("tmp_dual_arm_traj_2_reversed.json"),
         .runTraj ("tmp_dual_arm_traj_1_reversed.json"),
         .runTraj ("demo2/pick_front_crack/dual_arm_pick_to_body.json")]) := by
  constructor
  · exact splice_target_and_replay_order.1
      ⟨some 200, ⟨1, 1, 1⟩, [⟨true, ⟨0, 0, 0⟩⟩], some 200,
       [some ⟨200, [[1], [2]]⟩], [some ⟨200, [[3], [4]]⟩],
       [⟨some ⟨200, [[5]]⟩, some 200⟩], some 200, some 200, some 200⟩
      ⟨0, 0, 0⟩ 1 ⟨200, [[1], [2]]⟩ ⟨200, [[3], [4]]⟩ [2] [4] [[1]] [[3]]
      ⟨200, [[5]]⟩ 1 1 rfl rfl rfl rfl rfl rfl rfl rfl rfl rfl rfl rfl rfl
  · exact splice_target_and_replay_order.2
      ⟨some 200, some 200, ⟨1, 1, 1⟩, [⟨true, ⟨0, 0, 0⟩⟩], some 200,
       some 200, [some ⟨200, [[1], [2]]⟩], [some ⟨200, [[3], [4]]⟩],
       [⟨some ⟨200, [[5]]⟩, some 200⟩], some 200, some 200, some 200⟩
      ⟨0, 0, 0⟩ 1 ⟨200, [[1], [2]]⟩ ⟨200, [[3], [4]]⟩ [2] [4] [[1]] [[3]]
      ⟨200, [[5]]⟩ 1 1 rfl rfl rfl rfl rfl rfl rfl rfl rfl rfl rfl rfl rfl rfl rfl
